import Mathlib

/-!
Verification of the form-validation logic of the V2 repository.

The embedded code comes from:
* `src/app/casestudies/create/NowThenFrame.tsx` — the "Before → After"
  case-study creation form: the `MIN_CHARS` thresholds, the validation
  effect that recomputes per-field error flags and the aggregate `isValid`
  flag on every content change, `handleSubmit`, and the
  `renderCharacterProgress` progress value.
* `src/app/wizard1.tsx` — the wizard question screen: `isValid` and
  `handleNext`, both based on the trimmed answer.

Strings are modelled by Lean `String`; a character count (`.length` in the
source) is the Lean `String.length`.
-/

namespace V2

/-- Minimum character counts for the case-study form fields
(`MIN_CHARS` in `NowThenFrame.tsx`). -/
structure MinChars where
  headline : Nat
  initialSituation : Nat
  implementation : Nat
  results : Nat
deriving Repr, DecidableEq

/-- The constant `MIN_CHARS = { headline: 30, initialSituation: 200,
implementation: 300, results: 150 }`. -/
def MIN_CHARS : MinChars :=
  { headline := 30
    initialSituation := 200
    implementation := 300
    results := 150 }

/-- The snapshot of the five text fields held in component state
(`headline`, `initialSituation`, `implementation`, `results`, `roi`). -/
structure FormState where
  headline : String
  initialSituation : String
  implementation : String
  results : String
  roi : String
deriving Repr, DecidableEq

/-- The per-field error flags (`errors` state object; the optional `roi`
field has no entry, exactly as in the source). -/
structure Errors where
  headline : Bool
  initialSituation : Bool
  implementation : Bool
  results : Bool
deriving Repr, DecidableEq

/-- The output of one run of the validation effect: the fresh error flags
and the aggregate `isValid` flag. -/
structure ValidationState where
  errors : Errors
  isValid : Bool
deriving Repr, DecidableEq

/-- The `newErrors` object computed by the validation `useEffect`:
each flag is `field.length < MIN_CHARS.field`. -/
def computeErrors (s : FormState) : Errors :=
  { headline := decide (s.headline.length < MIN_CHARS.headline)
    initialSituation := decide (s.initialSituation.length < MIN_CHARS.initialSituation)
    implementation := decide (s.implementation.length < MIN_CHARS.implementation)
    results := decide (s.results.length < MIN_CHARS.results) }

/-- The check `Object.values(newErrors).some(error => error)`. -/
def anyError (e : Errors) : Bool :=
  e.headline || e.initialSituation || e.implementation || e.results

/-- The whole validation effect: `setErrors(newErrors)` and
`setIsValid(!Object.values(newErrors).some(error => error))`. -/
def validate (s : FormState) : ValidationState :=
  { errors := computeErrors s
    isValid := !(anyError (computeErrors s)) }

/-- The generic per-field computation the effect instantiates four times:
a field with content `content` and threshold `minChars` is satisfied when
its error flag `content.length < minChars` is off. -/
def satisfied (content : String) (minChars : Nat) : Bool :=
  !(decide (content.length < minChars))

/-- Modelled from the spec: a snapshot in which a field may be absent.
The source initializes every field with `useState('')`, so absence never
arises there; the spec says a malformed snapshot with an absent field is
handled by treating missing content as zero-length. -/
structure OptFormState where
  headline : Option String
  initialSituation : Option String
  implementation : Option String
  results : Option String
  roi : Option String
deriving Repr, DecidableEq

/-- Modelled from the spec: the character count of possibly-absent
content — missing content is treated as zero-length. -/
def contentLength (content : Option String) : Nat :=
  (content.getD "").length

/-- The defaulted snapshot: every absent field replaced by the empty
string (the value the source initializes each field with). -/
def withDefaults (os : OptFormState) : FormState :=
  { headline := os.headline.getD ""
    initialSituation := os.initialSituation.getD ""
    implementation := os.implementation.getD ""
    results := os.results.getD ""
    roi := os.roi.getD "" }

/-- Modelled from the spec: the validation effect run on a
possibly-malformed snapshot, each field read through `contentLength`. -/
def validateOpt (os : OptFormState) : ValidationState :=
  { errors :=
      { headline := decide (contentLength os.headline < MIN_CHARS.headline)
        initialSituation :=
          decide (contentLength os.initialSituation < MIN_CHARS.initialSituation)
        implementation :=
          decide (contentLength os.implementation < MIN_CHARS.implementation)
        results := decide (contentLength os.results < MIN_CHARS.results) }
    isValid :=
      !(anyError
        { headline := decide (contentLength os.headline < MIN_CHARS.headline)
          initialSituation :=
            decide (contentLength os.initialSituation < MIN_CHARS.initialSituation)
          implementation :=
            decide (contentLength os.implementation < MIN_CHARS.implementation)
          results := decide (contentLength os.results < MIN_CHARS.results) }) }

/-- The outcome of one press of the save action. -/
inductive SubmitOutcome where
  /-- The invalid branch: the blocking notice
  `Alert.alert("Incomplete inputs", ...)`; nothing is handed on. -/
  | blocked : SubmitOutcome
  /-- The valid branch. Modelled from the spec: the raw field contents are
  handed to the persistence/submission collaborator — the source marks the
  hand-off spot with the comment `Here the data would be saved/sent`, then
  shows the success alert and navigates home. -/
  | submitted : FormState → SubmitOutcome
deriving Repr, DecidableEq

/-- The component state `handleSubmit` can see: the five field contents,
the error flags and the aggregate `isValid` flag. -/
structure ComponentState where
  form : FormState
  errors : Errors
  isValid : Bool
deriving Repr, DecidableEq

/-- The handler `handleSubmit`: branch on the stored `isValid` flag; neither branch
calls any state setter, so the component state is returned unchanged. -/
def handleSubmit (st : ComponentState) : SubmitOutcome × ComponentState :=
  if st.isValid then (.submitted st.form, st) else (.blocked, st)

/-- JS whitespace (the set `String.prototype.trim` strips): tab, LF, VT,
FF, CR, space, NBSP, the Unicode space separators, LS, PS and the BOM. -/
def isJsWhitespace (c : Char) : Bool :=
  c == '\t' || c == '\n' || c == '\x0b' || c == '\x0c' || c == '\r' || c == ' '
    || c.toNat == 0x00A0 || c.toNat == 0x1680
    || (0x2000 ≤ c.toNat && c.toNat ≤ 0x200A)
    || c.toNat == 0x2028 || c.toNat == 0x2029 || c.toNat == 0x202F
    || c.toNat == 0x205F || c.toNat == 0x3000 || c.toNat == 0xFEFF

/-- The call `answer.trim()`: strip leading and trailing whitespace (the answer is
modelled as its list of characters). -/
def jsTrim (l : List Char) : List Char :=
  ((l.dropWhile isJsWhitespace).reverse.dropWhile isJsWhitespace).reverse

/-- The flag `isValid = answer.trim().length > 0` in `wizard1.tsx`. -/
def wizardIsValid (answer : List Char) : Bool :=
  decide (0 < (jsTrim answer).length)

/-- The handler `handleNext` in `wizard1.tsx`: `if (answer.trim())` — the handler
proceeds (logs the answer) iff the trimmed answer is truthy, i.e.
nonempty; otherwise it does nothing. -/
def handleNext (answer : List Char) : Option (List Char) :=
  if jsTrim answer = [] then none else some answer

/-- The value computed by `renderCharacterProgress`:
`progress = Math.min(currentLength / minChars, 1)`, the quotient
modelled exactly as a rational. The bar uses the success colour when
`progress >= 1`. -/
def progress (currentLength minChars : Nat) : ℚ :=
  min ((currentLength : ℚ) / (minChars : ℚ)) 1

end V2

namespace V2

/-- C1: a field flag is satisfied (its error flag is off) iff the content
length is at least the configured minimum — stated for each of the four
validated fields of the form, for every snapshot. -/
theorem c1_satisfied_iff_length_ge (s : FormState) :
    ((validate s).errors.headline = false ↔ MIN_CHARS.headline ≤ s.headline.length)
    ∧ ((validate s).errors.initialSituation = false
        ↔ MIN_CHARS.initialSituation ≤ s.initialSituation.length)
    ∧ ((validate s).errors.implementation = false
        ↔ MIN_CHARS.implementation ≤ s.implementation.length)
    ∧ ((validate s).errors.results = false ↔ MIN_CHARS.results ≤ s.results.length) := by
  simp [validate, computeErrors, Nat.not_lt]

/-- C2: the aggregate `isValid` flag is on iff every required field
(headline, initialSituation, implementation, results) is satisfied, and the
optional `roi` field never affects the outcome: replacing its content with
any string (the empty string included) leaves the whole ValidationState
unchanged. -/
theorem c2_isValid_iff_all_required (s : FormState) :
    ((validate s).isValid = true
      ↔ satisfied s.headline MIN_CHARS.headline = true
        ∧ satisfied s.initialSituation MIN_CHARS.initialSituation = true
        ∧ satisfied s.implementation MIN_CHARS.implementation = true
        ∧ satisfied s.results MIN_CHARS.results = true)
    ∧ ∀ r : String, validate { s with roi := r } = validate s := by
  constructor
  · simp [validate, anyError, computeErrors, satisfied, Nat.not_lt, and_assoc]
  · intro r
    simp [validate, anyError, computeErrors]

/-- C3: with the concrete thresholds (30/200/300/150), an
`initialSituation` of length 199 turns its error flag on and the aggregate
off; at length 200 its error flag is off, and if the three other required
fields also meet their thresholds the aggregate is on. -/
theorem c3_initial_situation_scenario (s : FormState) :
    (s.initialSituation.length = 199 →
      (validate s).errors.initialSituation = true ∧ (validate s).isValid = false)
    ∧ (s.initialSituation.length = 200 →
        (validate s).errors.initialSituation = false
        ∧ (30 ≤ s.headline.length → 300 ≤ s.implementation.length →
            150 ≤ s.results.length → (validate s).isValid = true)) := by
  constructor
  · intro h
    simp [validate, anyError, computeErrors, MIN_CHARS, h]
  · intro h
    constructor
    · simp [validate, computeErrors, MIN_CHARS, h]
    · intro h1 h2 h3
      simp [validate, anyError, computeErrors, MIN_CHARS, h, Nat.not_lt, h1, h2, h3]

/-- Length of a string built from a replicated character. -/
theorem length_mk_replicate (n : Nat) (c : Char) :
    (String.mk (List.replicate n c)).length = n :=
  List.length_replicate n c

/-- Witness for C3 at concrete snapshots: lengths 199 and 200 for
`initialSituation`, the other fields at their exact thresholds. -/
theorem c3_initial_situation_scenario_witness :
    ((validate ⟨String.mk (List.replicate 30 'a'), String.mk (List.replicate 199 'a'),
        String.mk (List.replicate 300 'a'), String.mk (List.replicate 150 'a'),
        ""⟩).errors.initialSituation = true
      ∧ (validate ⟨String.mk (List.replicate 30 'a'), String.mk (List.replicate 199 'a'),
          String.mk (List.replicate 300 'a'), String.mk (List.replicate 150 'a'),
          ""⟩).isValid = false)
    ∧ ((validate ⟨String.mk (List.replicate 30 'a'), String.mk (List.replicate 200 'a'),
        String.mk (List.replicate 300 'a'), String.mk (List.replicate 150 'a'),
        ""⟩).errors.initialSituation = false
      ∧ (validate ⟨String.mk (List.replicate 30 'a'), String.mk (List.replicate 200 'a'),
          String.mk (List.replicate 300 'a'), String.mk (List.replicate 150 'a'),
          ""⟩).isValid = true) := by
  refine ⟨(c3_initial_situation_scenario _).1 (length_mk_replicate 199 'a'), ?_, ?_⟩
  · exact ((c3_initial_situation_scenario _).2 (length_mk_replicate 200 'a')).1
  · exact ((c3_initial_situation_scenario _).2 (length_mk_replicate 200 'a')).2
      (by rw [length_mk_replicate]) (by rw [length_mk_replicate])
      (by rw [length_mk_replicate])

/-- C4: appending characters never turns a satisfied field unsatisfied:
for every threshold and contents, if `satisfied c m` then
`satisfied (c ++ s) m`; and the validator's four error flags are exactly
the negations of this per-field computation. -/
theorem c4_append_monotone :
    (∀ (m : Nat) (c s : String), satisfied c m = true → satisfied (c ++ s) m = true)
    ∧ ∀ fs : FormState,
        (validate fs).errors.headline = !satisfied fs.headline MIN_CHARS.headline
        ∧ (validate fs).errors.initialSituation
            = !satisfied fs.initialSituation MIN_CHARS.initialSituation
        ∧ (validate fs).errors.implementation
            = !satisfied fs.implementation MIN_CHARS.implementation
        ∧ (validate fs).errors.results = !satisfied fs.results MIN_CHARS.results := by
  constructor
  · intro m c s h
    simp only [satisfied, Bool.not_eq_true', decide_eq_false_iff_not, Nat.not_lt] at h ⊢
    rw [String.length_append]
    omega
  · intro fs
    simp [validate, computeErrors, satisfied]

/-- Witness for C4: a content satisfying threshold 2 still satisfies it
after an append. -/
theorem c4_append_monotone_witness :
    satisfied "abc" 2 = true ∧ satisfied ("abc" ++ "d") 2 = true :=
  ⟨by decide, c4_append_monotone.1 2 "abc" "d" (by decide)⟩

/-- C5: the validator is a pure function of the snapshot: two invocations
on equal snapshots produce identical ValidationStates (identical per-field
flags and aggregate). -/
theorem c5_validator_deterministic (s₁ s₂ : FormState) (h : s₁ = s₂) :
    validate s₁ = validate s₂ := by
  rw [h]

/-- Witness for C5 on the all-empty snapshot. -/
theorem c5_validator_deterministic_witness :
    (⟨"", "", "", "", ""⟩ : FormState) = ⟨"", "", "", "", ""⟩
    ∧ validate ⟨"", "", "", "", ""⟩ = validate ⟨"", "", "", "", ""⟩ :=
  ⟨rfl, c5_validator_deterministic _ _ rfl⟩

end V2

namespace V2

/-- The trimmed answer is empty iff every character of the answer is
whitespace. -/
theorem jsTrim_eq_nil_iff (l : List Char) :
    jsTrim l = [] ↔ ∀ c ∈ l, isJsWhitespace c = true := by
  unfold jsTrim
  rw [List.reverse_eq_nil_iff, List.dropWhile_eq_nil_iff]
  constructor
  · intro h c hc
    have hc2 : c ∈ l.takeWhile isJsWhitespace ++ l.dropWhile isJsWhitespace := by
      rw [List.takeWhile_append_dropWhile]
      exact hc
    rcases List.mem_append.mp hc2 with h1 | h2
    · exact List.mem_takeWhile_imp h1
    · exact h c (List.mem_reverse.mpr h2)
  · intro h x hx
    exact h x ((List.dropWhile_sublist isJsWhitespace).subset (List.mem_reverse.mp hx))

/-- C6: the validator is total and error-free: on a possibly-malformed
snapshot it coincides with the ordinary validator run on the defaulted
snapshot (missing content is zero-length), each flag resolves exactly by
the length comparison, and a zero threshold is always satisfied. -/
theorem c6_total_missing_as_empty (os : OptFormState) :
    validateOpt os = validate (withDefaults os)
    ∧ ((validateOpt os).errors.headline = false
        ↔ MIN_CHARS.headline ≤ contentLength os.headline)
    ∧ ((validateOpt os).errors.initialSituation = false
        ↔ MIN_CHARS.initialSituation ≤ contentLength os.initialSituation)
    ∧ ((validateOpt os).errors.implementation = false
        ↔ MIN_CHARS.implementation ≤ contentLength os.implementation)
    ∧ ((validateOpt os).errors.results = false
        ↔ MIN_CHARS.results ≤ contentLength os.results)
    ∧ (∀ c : String, satisfied c 0 = true) := by
  refine ⟨?_, ?_, ?_, ?_, ?_, ?_⟩
  · simp [validateOpt, validate, computeErrors, withDefaults, contentLength]
  · simp [validateOpt, Nat.not_lt]
  · simp [validateOpt, Nat.not_lt]
  · simp [validateOpt, Nat.not_lt]
  · simp [validateOpt, Nat.not_lt]
  · intro c
    simp [satisfied]

/-- C7: one press of the save action yields exactly one of the two
outcomes, decided solely by the aggregate flag: the blocking notice iff
the flag is off, the hand-off of the raw field contents iff it is on. -/
theorem c7_submit_decided_by_flag (st : ComponentState) :
    ((handleSubmit st).1 = SubmitOutcome.blocked ↔ st.isValid = false)
    ∧ ((handleSubmit st).1 = SubmitOutcome.submitted st.form ↔ st.isValid = true)
    ∧ ¬((handleSubmit st).1 = SubmitOutcome.blocked
        ∧ (handleSubmit st).1 = SubmitOutcome.submitted st.form) := by
  rcases st with ⟨f, e, v⟩
  cases v <;> simp [handleSubmit]

/-- C9: `handleSubmit` changes no component state in either branch: the
field contents, the error flags and the aggregate flag all come back
unchanged. -/
theorem c9_submit_preserves_state (st : ComponentState) :
    (handleSubmit st).2 = st
    ∧ (handleSubmit st).2.form = st.form
    ∧ (handleSubmit st).2.errors = st.errors
    ∧ (handleSubmit st).2.isValid = st.isValid := by
  unfold handleSubmit
  split <;> simp

/-- C8: the wizard's Next action is enabled iff its handler proceeds, iff
the answer has at least one non-whitespace character; a whitespace-only
answer is invalid there even though the case-study validator, which counts
raw length, accepts whitespace-only content of sufficient length. -/
theorem c8_wizard_next_iff_nonwhitespace (answer : List Char) :
    (wizardIsValid answer = true ↔ (handleNext answer).isSome = true)
    ∧ (wizardIsValid answer = true ↔ ∃ c ∈ answer, isJsWhitespace c = false)
    ∧ (wizardIsValid (List.replicate 3 ' ') = false
        ∧ satisfied (String.mk (List.replicate 30 ' ')) 30 = true) := by
  refine ⟨?_, ?_, by decide, by decide⟩
  · unfold wizardIsValid handleNext
    by_cases h : jsTrim answer = []
    · simp [h]
    · simp [h, List.length_pos]
  · unfold wizardIsValid
    simp only [decide_eq_true_eq, List.length_pos, ne_eq, jsTrim_eq_nil_iff]
    push_neg
    simp [Bool.not_eq_true]

/-- C10: for a positive threshold, the progress value `min(len/min, 1)`
equals 1 — and the bar reaches the success state `progress >= 1` — exactly
when the field is satisfied. -/
theorem c10_progress_one_iff_satisfied (c : String) (m : Nat) (hm : 0 < m) :
    (progress c.length m = 1 ↔ satisfied c m = true)
    ∧ (1 ≤ progress c.length m ↔ satisfied c m = true) := by
  have hmQ : (0 : ℚ) < (m : ℚ) := by exact_mod_cast hm
  have key : (1 : ℚ) ≤ (c.length : ℚ) / (m : ℚ) ↔ m ≤ c.length := by
    rw [one_le_div hmQ]
    exact_mod_cast Iff.rfl
  have hsat : satisfied c m = true ↔ m ≤ c.length := by
    simp [satisfied, Nat.not_lt]
  have h1 : progress c.length m = 1 ↔ (1 : ℚ) ≤ (c.length : ℚ) / (m : ℚ) := by
    unfold progress
    exact min_eq_right_iff
  have h2 : (1 : ℚ) ≤ progress c.length m ↔ (1 : ℚ) ≤ (c.length : ℚ) / (m : ℚ) := by
    unfold progress
    simp [le_min_iff]
  rw [h1, h2, key, hsat]
  exact ⟨Iff.rfl, Iff.rfl⟩

/-- Witness for C10 at content "ab" and threshold 2. -/
theorem c10_progress_one_iff_satisfied_witness :
    0 < 2
    ∧ ((progress ("ab" : String).length 2 = 1 ↔ satisfied "ab" 2 = true)
      ∧ (1 ≤ progress ("ab" : String).length 2 ↔ satisfied "ab" 2 = true)) :=
  ⟨by decide, c10_progress_one_iff_satisfied "ab" 2 (by decide)⟩

end V2
